import Mathlib

/-!
Shallow embedding of `src/eesdr_owrx_connector/connector.py` (the `Connector`
class): the shared tuning keystore, the control-endpoint line handler
`handle_control`, the propagation actions `update_rate` / `update_center`, the
response checker `tci_check_response`, the IQ relay loop `handle_iq`, and the
session state machine of `tci_interface`.  Upstream commands are modelled as
the structured arguments passed to `prepare_string`/`send` (the wire encoding
is an external collaborator); asyncio coroutines become pure functions over
explicit state, with the values observed at each suspension point supplied as
inputs.
-/

namespace Connector

/-- Relevant fields of `self.args` (CLI configuration): the receiver index
(`--receiver`, 0 or 1) and the device start/stop flag (`--startstop`). -/
structure Config where
  receiver : Nat
  startstop : Bool
deriving Repr, DecidableEq

/-- The keys of `self.keystore = {'center_freq': ..., 'samp_rate': ...}`.
The dict's key set is fixed at construction; `handle_control` only writes
existing keys, so the keystore is a two-field record. -/
inductive Key
  | center_freq
  | samp_rate
deriving Repr, DecidableEq

/-- `self.keystore`: the Shared Tuning State, mapping each key to an int. -/
structure Keystore where
  center_freq : Int
  samp_rate : Int
deriving Repr, DecidableEq

def Keystore.get (ks : Keystore) : Key → Int
  | .center_freq => ks.center_freq
  | .samp_rate => ks.samp_rate

def Keystore.set (ks : Keystore) : Key → Int → Keystore
  | .center_freq, v => { ks with center_freq := v }
  | .samp_rate, v => { ks with samp_rate := v }

/-- The membership test `k in self.keystore` on the raw key string. -/
def keyOfString (s : String) : Option Key :=
  if s = "center_freq" then some Key.center_freq
  else if s = "samp_rate" then some Key.samp_rate
  else none

/-- Names of the TCI commands the connector sends (`tci.COMMANDS[...]`). -/
inductive CmdName
  | START
  | STOP
  | RX_ENABLE
  | IQ_SAMPLERATE
  | DDS
  | IQ_START
  | IQ_STOP
deriving Repr, DecidableEq

/-- A parameter value passed in `params=[...]` (booleans and integers occur). -/
inductive PVal
  | pB (b : Bool)
  | pI (n : Int)
deriving Repr, DecidableEq

/-- One upstream write command, recorded as the structured arguments the code
passes to `prepare_string(TciCommandSendAction.WRITE, rx=..., params=[...])`:
the command name, the optional `rx=` keyword argument, and the `params` list.
All sends in the file use the WRITE action, so it is not a field. -/
structure Cmd where
  name : CmdName
  rx : Option Nat
  params : List PVal
deriving Repr, DecidableEq

/-- `update_rate`: sends `IQ_SAMPLERATE` WRITE with
`params=[self.keystore['samp_rate']]` and no `rx` argument. -/
def update_rate (ks : Keystore) : Cmd :=
  { name := .IQ_SAMPLERATE, rx := none, params := [.pI ks.samp_rate] }

/-- `update_center`: sends `DDS` WRITE with `rx=self.args.receiver` and
`params=[self.keystore['center_freq']]`. -/
def update_center (cfg : Config) (ks : Keystore) : Cmd :=
  { name := .DDS, rx := some cfg.receiver, params := [.pI ks.center_freq] }

/-- `self.ks_handlers`: the propagation action registered for each key. -/
def ks_handlers (cfg : Config) (k : Key) (ks : Keystore) : Cmd :=
  match k with
  | .center_freq => update_center cfg ks
  | .samp_rate => update_rate ks

/-! ### Models of the Python string builtins used by `handle_control` -/

/-- Characters `str.strip()` and `int()` treat as (ASCII) whitespace. -/
def isPySpace (c : Char) : Bool :=
  c = ' ' || c = '\t' || c = '\n' || c = '\x0d' || c = '\x0b' || c = '\x0c'

/-- `str.strip()` on the character list: drop whitespace from both ends. -/
def pyStripList (cs : List Char) : List Char :=
  ((cs.dropWhile isPySpace).reverse.dropWhile isPySpace).reverse

/-- `str.split(sep, maxsplit)` on a character list: `n` is the number of
splits still allowed, `acc` the chunk being accumulated. -/
def pySplitAux (sep : Char) : Nat → List Char → List Char → List (List Char)
  | _, acc, [] => [acc]
  | 0, acc, rest => [acc ++ rest]
  | n + 1, acc, c :: cs =>
    if c = sep then acc :: pySplitAux sep n [] cs
    else pySplitAux sep (n + 1) (acc ++ [c]) cs

/-- `msg.split(':', maxsplit)` as used on line 30 of the source. -/
def pySplit (sep : Char) (maxsplit : Nat) (cs : List Char) : List (List Char) :=
  pySplitAux sep maxsplit [] cs

/-- Digit run of a Python int literal: nonempty, underscores only between
digits.  `prev` records whether the previous character was a digit. -/
def pyIntDigits : List Char → Nat → Bool → Option Nat
  | [], acc, prev => if prev then some acc else none
  | c :: cs, acc, prev =>
    if c.isDigit then pyIntDigits cs (acc * 10 + (c.toNat - 48)) true
    else if c = '_' && prev then pyIntDigits cs acc false
    else none

/-- `int(v)` on a string: strip whitespace, optional sign, digits.
Returns `none` where the builtin raises `ValueError`. -/
def pyInt (cs : List Char) : Option Int :=
  match pyStripList cs with
  | '+' :: rest => (pyIntDigits rest 0 false).map Int.ofNat
  | '-' :: rest => (pyIntDigits rest 0 false).map (fun n => -(n : Int))
  | rest => (pyIntDigits rest 0 false).map Int.ofNat

/-! ### The control endpoint (`handle_control`, lines 19–42) -/

/-- Outcome of processing one received line inside the `while` loop of
`handle_control`. -/
inductive LineOutcome
  | skip
  | accept (k : Key) (iv : Int)
  | crash
deriving Repr, DecidableEq

/-- Classification of one line, following the body of `handle_control`:
`msg = data.decode().strip()`; `continue` when `':' not in msg`;
`k, v = msg.split(':', 2)` — with two or more colons the split yields three
parts and the tuple unpacking raises an uncaught `ValueError` (`crash`);
`continue` when `k not in self.keystore`; `iv = int(v)` with `ValueError`
caught (`skip`); otherwise the message is accepted as `(k, iv)`. -/
def classifyLine (line : String) : LineOutcome :=
  let msg := pyStripList line.toList
  if ':' ∈ msg then
    match pySplit ':' 2 msg with
    | [k, v] =>
      match keyOfString (String.mk k) with
      | some key =>
        match pyInt v with
        | some iv => .accept key iv
        | none => .skip
      | none => .skip
    | _ => .crash
  else .skip

/-- Result of running one control connection over a finite list of received
lines: final keystore, propagation commands sent (in order), whether the
connection was terminated by an uncaught exception, and the lines left
unread in that case. -/
structure CtlResult where
  ks : Keystore
  cmds : List Cmd
  closed : Bool
  unread : List String
deriving Repr, DecidableEq

/-- `handle_control` over a list of received lines (shutdown stays false for
the duration, as it does until a signal arrives).  An accepted message first
stores `iv` in the keystore, then awaits the key's handler, which reads the
keystore after the update; the next line is read only after the handler
returns.  A `crash` outcome is caught by the connection-level `except`,
ending the connection with the remaining lines unread. -/
def handle_control (cfg : Config) : Keystore → List String → CtlResult
  | ks, [] => ⟨ks, [], false, []⟩
  | ks, line :: rest =>
    match classifyLine line with
    | .skip => handle_control cfg ks rest
    | .crash => ⟨ks, [], true, rest⟩
    | .accept k iv =>
      let ks1 := ks.set k iv
      let cmd := ks_handlers cfg k ks1
      let r := handle_control cfg ks1 rest
      ⟨r.ks, cmd :: r.cmds, r.closed, r.unread⟩

/-! ### Response verification (`tci_check_response`, lines 74–78) -/

/-- The two warnings `tci_check_response` can print to stderr. -/
inductive Warning
  | rateMismatch
  | centerMismatch
deriving Repr, DecidableEq

/-- `tci_check_response(command, rx, subrx, param)`: compares a parameter
notification against the keystore and prints warnings; it assigns nothing,
so the keystore is returned unchanged alongside the warnings. -/
def tci_check_response (cfg : Config) (ks : Keystore) (command : String)
    (rx : Nat) (_subrx : Nat) (param : Int) : Keystore × List Warning :=
  let w1 : List Warning :=
    if command = "IQ_SAMPLERATE" && param ≠ ks.samp_rate then [.rateMismatch] else []
  let w2 : List Warning :=
    if command = "DDS" && rx = cfg.receiver && param ≠ ks.center_freq then
      [.centerMismatch]
    else []
  (ks, w1 ++ w2)

/-! ### The IQ relay loop (`handle_iq`, lines 45–58) -/

/-- An opaque sample block (`packet.data`); contents are never inspected. -/
abbrev Block := Nat

/-- What one iteration of the relay loop observes, in source order: the
shutdown flag read at the loop top (`sdTrue` when it is set), then
`await self.iq_packets.get()` (which may raise, e.g. on cancellation), then
`writer.write`/`await writer.drain()` (which may raise on an I/O fault). -/
inductive RelayInput
  | sdTrue
  | blockOk (b : Block)
  | getFail
  | writeFail (b : Block)
deriving Repr, DecidableEq

/-- State of one IQ connection after `handle_iq` runs: the demand flag
(`self.demand_iq`), the blocks written and drained to the consumer, and
whether the coroutine has terminated. -/
structure RelayResult where
  demand : Bool
  delivered : List Block
  exited : Bool
deriving Repr, DecidableEq

/-- The `try` body of `handle_iq`: the `while not self.shutdown` loop.
Returns the delivered blocks and whether the loop was left (by the shutdown
check or by an exception, which the `except` clause absorbs).  An exhausted
input list means the coroutine is still suspended inside the loop. -/
def relayLoop : List RelayInput → List Block → List Block × Bool
  | [], acc => (acc, false)
  | .sdTrue :: _, acc => (acc, true)
  | .getFail :: _, acc => (acc, true)
  | .writeFail _ :: _, acc => (acc, true)
  | .blockOk b :: rest, acc => relayLoop rest (acc ++ [b])

/-- `handle_iq`: `self.demand_iq.set()` on connect, then the relay loop;
the `finally` block clears the demand flag on every path out of the
`try`/`except`, so demand is false exactly when the coroutine terminated. -/
def handle_iq (inputs : List RelayInput) : RelayResult :=
  let r := relayLoop inputs []
  { demand := if r.2 then false else true, delivered := r.1, exited := r.2 }

/-- Whether a relay-loop observation makes the loop terminate: a set
shutdown flag, a failing queue take, or an I/O fault while writing. -/
def isRelayExit : RelayInput → Bool
  | .sdTrue => true
  | .getFail => true
  | .writeFail _ => true
  | .blockOk _ => false

/-! ### The session state machine (`tci_interface`, lines 96–115) -/

/-- Control points of the `while not self.shutdown` loop of `tci_interface`:
`idleCheck` is the loop top (the only place the shutdown flag is read),
`idleWait` is `await self.demand_iq.wait()`, `streaming` is the 50 ms
demand-polling loop, `done` means the loop has exited. -/
inductive Phase
  | idleCheck
  | idleWait
  | streaming
  | done
deriving Repr, DecidableEq

/-- State owned by `tci_interface`: the current control point, the
`iq_packets` queue contents, the upstream commands sent so far, and the
blocks delivered to the consumer (written only by the relay loop — the
drain on lines 113–115 discards, it never delivers). -/
structure SessionState where
  phase : Phase
  buffer : List Block
  sent : List Cmd
  delivered : List Block
deriving Repr, DecidableEq

/-- Values of the shared mutable state observed by one step of the session
loop: the shutdown flag, the demand flag, and the keystore. -/
structure Env where
  shutdown : Bool
  demand : Bool
  ks : Keystore
deriving Repr, DecidableEq

/-- The command sequence of the Starting phase (lines 100–105), in send
order, each awaited before the next: optional `START`, `RX_ENABLE`,
`update_rate`, `update_center`, `IQ_START`. -/
def startingCmds (cfg : Config) (ks : Keystore) : List Cmd :=
  (if cfg.startstop then [{ name := .START, rx := none, params := [] }] else []) ++
  [{ name := .RX_ENABLE, rx := some cfg.receiver, params := [.pB true] },
   update_rate ks,
   update_center cfg ks,
   { name := .IQ_START, rx := some cfg.receiver, params := [] }]

/-- The command sequence of the Stopping phase (lines 110–112): `IQ_STOP`
then optional `STOP`. -/
def stoppingCmds (cfg : Config) : List Cmd :=
  [{ name := .IQ_STOP, rx := some cfg.receiver, params := [] }] ++
  (if cfg.startstop then [{ name := .STOP, rx := none, params := [] }] else [])

/-- The drain loop `while self.iq_packets.qsize(): get_nowait(); task_done()`
(lines 113–115): removes elements one by one until the queue is empty.  It
contains no await, so it runs atomically in the event loop. -/
def drainQueue : List Block → List Block
  | [] => []
  | _ :: rest => drainQueue rest

/-- `tci_receive_data`: every inbound data notification is appended to the
queue with `put_nowait` (never blocks). -/
def tci_receive_data (s : SessionState) (b : Block) : SessionState :=
  { s with buffer := s.buffer ++ [b] }

/-- One step of the `tci_interface` loop, from one suspension point to the
next.  At `idleCheck` the shutdown flag decides between exiting the loop and
waiting for demand; at `idleWait` the step is a no-op until the demand flag
is observed true, upon which the Starting sequence is sent and the inner
polling loop is entered; at `streaming` a set demand flag means another
50 ms sleep, a cleared one triggers the Stopping sequence and the queue
drain before returning to the loop top. -/
def tciStep (cfg : Config) (env : Env) (s : SessionState) : SessionState :=
  match s.phase with
  | .idleCheck =>
    if env.shutdown then { s with phase := .done } else { s with phase := .idleWait }
  | .idleWait =>
    if env.demand then
      { s with phase := .streaming, sent := s.sent ++ startingCmds cfg env.ks }
    else s
  | .streaming =>
    if env.demand then s
    else
      { s with
          phase := .idleCheck,
          sent := s.sent ++ stoppingCmds cfg,
          buffer := drainQueue s.buffer }
  | .done => s

/-! ### Specification-side helpers for the control endpoint -/

/-- The `(key, value)` pair of a line when it is accepted. -/
def acceptedPair (line : String) : Option (Key × Int) :=
  match classifyLine line with
  | .accept k iv => some (k, iv)
  | _ => none

/-- The accepted `(key, value)` pairs of a line sequence, in arrival order. -/
def acceptedPairs (lines : List String) : List (Key × Int) :=
  lines.filterMap acceptedPair

/-- Last accepted value for a key over a pair sequence, with default `d`. -/
def lastVal (ps : List (Key × Int)) (k : Key) (d : Int) : Int :=
  ps.foldl (fun d p => if p.1 = k then p.2 else d) d

/-- The upstream command name that the key's propagation action sends. -/
def keyCmdName : Key → CmdName
  | .center_freq => .DDS
  | .samp_rate => .IQ_SAMPLERATE

theorem Keystore.get_set (ks : Keystore) (k k2 : Key) (v : Int) :
    (ks.set k v).get k2 = if k = k2 then v else ks.get k2 := by
  cases k <;> cases k2 <;> simp [Keystore.set, Keystore.get]

theorem Keystore.set_set_same (ks : Keystore) (k : Key) (v : Int) :
    (ks.set k v).set k v = ks.set k v := by
  cases k <;> simp [Keystore.set]

theorem ks_handlers_name (cfg : Config) (k : Key) (ks : Keystore) :
    (ks_handlers cfg k ks).name = keyCmdName k := by
  cases k <;> rfl

theorem lastVal_cons (p : Key × Int) (ps : List (Key × Int)) (k : Key) (d : Int) :
    lastVal (p :: ps) k d = lastVal ps k (if p.1 = k then p.2 else d) := rfl

/-! ### Claims about the control endpoint -/

/-- Claim C2: for every sequence of valid control messages (each classifying
as `accept`) processed on one control connection, the connection stays open,
exactly one propagation command fires per message — the one specific to that
message's key, in arrival order — and the final keystore maps each key to
the last accepted value for that key (or its prior value if none). -/
theorem control_last_write_wins (cfg : Config) (ks : Keystore)
    (lines : List String)
    (hv : ∀ l ∈ lines, ∃ k iv, classifyLine l = LineOutcome.accept k iv) :
    (handle_control cfg ks lines).closed = false ∧
    (handle_control cfg ks lines).cmds.length = lines.length ∧
    (handle_control cfg ks lines).cmds.map Cmd.name
      = (acceptedPairs lines).map (fun p => keyCmdName p.1) ∧
    ∀ k, ((handle_control cfg ks lines).ks).get k
        = lastVal (acceptedPairs lines) k (ks.get k) := by
  induction lines generalizing ks with
  | nil => simp [handle_control, acceptedPairs, lastVal]
  | cons line rest ih =>
    obtain ⟨k0, iv0, hline⟩ := hv line (List.mem_cons_self _ _)
    have hrest : ∀ l ∈ rest, ∃ k iv, classifyLine l = LineOutcome.accept k iv :=
      fun l hl => hv l (List.mem_cons_of_mem _ hl)
    obtain ⟨h1, h2, h3, h4⟩ := ih (ks.set k0 iv0) hrest
    have hpairs : acceptedPairs (line :: rest) = (k0, iv0) :: acceptedPairs rest := by
      simp [acceptedPairs, acceptedPair, hline]
    have hrun : handle_control cfg ks (line :: rest)
        = ⟨(handle_control cfg (ks.set k0 iv0) rest).ks,
           ks_handlers cfg k0 (ks.set k0 iv0)
             :: (handle_control cfg (ks.set k0 iv0) rest).cmds,
           (handle_control cfg (ks.set k0 iv0) rest).closed,
           (handle_control cfg (ks.set k0 iv0) rest).unread⟩ := by
      simp [handle_control, hline]
    refine ⟨?_, ?_, ?_, ?_⟩
    · rw [hrun]; exact h1
    · rw [hrun]; simp [h2]
    · rw [hrun, hpairs]; simp [h3, ks_handlers_name]
    · intro k
      rw [hrun, hpairs, lastVal_cons]
      simpa [Keystore.get_set] using h4 k

/-- Claim C9: processing the same valid control message twice in a row
leaves the keystore identical to processing it once, and fires the key's
propagation action twice — the second, identical command is not
deduplicated even though the stored value is unchanged. -/
theorem duplicate_message_state_once_propagation_twice (cfg : Config)
    (ks : Keystore) (line : String) (k : Key) (iv : Int)
    (h : classifyLine line = LineOutcome.accept k iv) :
    (handle_control cfg ks [line, line]).ks = (handle_control cfg ks [line]).ks ∧
    (handle_control cfg ks [line, line]).cmds
      = (handle_control cfg ks [line]).cmds ++ (handle_control cfg ks [line]).cmds ∧
    (handle_control cfg ks [line]).cmds.length = 1 := by
  simp [handle_control, h, Keystore.set_set_same]

/-- Claim C4 (failing input): the malformed line `center_freq:1:2` — not of
the form `key:value` — leaves the keystore unchanged and fires no
propagation, but instead of being ignored it terminates the control
connection: the `ValueError` raised by unpacking the three-part
`split(':', 2)` result escapes the inner `try` and is caught by the
connection-level handler, so the following line is never read. -/
theorem malformed_two_colon_line_closes_connection :
    classifyLine "center_freq:1:2" = LineOutcome.crash ∧
    handle_control ⟨0, false⟩ ⟨14200000, 96000⟩
        ["center_freq:1:2", "samp_rate:48000"]
      = ⟨⟨14200000, 96000⟩, [], true, ["samp_rate:48000"]⟩ := by
  constructor
  · decide
  · decide

/-- Witness for claim C2 at a concrete message sequence. -/
theorem control_last_write_wins_witness :
    (handle_control ⟨0, false⟩ ⟨14200000, 96000⟩
        ["samp_rate:48000", "center_freq:7100000"]).closed = false ∧
    (handle_control ⟨0, false⟩ ⟨14200000, 96000⟩
        ["samp_rate:48000", "center_freq:7100000"]).cmds.length
      = (["samp_rate:48000", "center_freq:7100000"] : List String).length ∧
    (handle_control ⟨0, false⟩ ⟨14200000, 96000⟩
        ["samp_rate:48000", "center_freq:7100000"]).cmds.map Cmd.name
      = (acceptedPairs ["samp_rate:48000", "center_freq:7100000"]).map
          (fun p => keyCmdName p.1) ∧
    ∀ k, ((handle_control ⟨0, false⟩ ⟨14200000, 96000⟩
        ["samp_rate:48000", "center_freq:7100000"]).ks).get k
      = lastVal (acceptedPairs ["samp_rate:48000", "center_freq:7100000"]) k
          ((⟨14200000, 96000⟩ : Keystore).get k) :=
  control_last_write_wins ⟨0, false⟩ ⟨14200000, 96000⟩
    ["samp_rate:48000", "center_freq:7100000"]
    (by
      intro l hl
      simp only [List.mem_cons, List.not_mem_nil, or_false] at hl
      rcases hl with rfl | rfl
      · exact ⟨Key.samp_rate, 48000, by decide⟩
      · exact ⟨Key.center_freq, 7100000, by decide⟩)

/-- Witness for claim C9 at a concrete repeated message. -/
theorem duplicate_message_state_once_propagation_twice_witness :
    (handle_control ⟨0, false⟩ ⟨14200000, 96000⟩
        ["samp_rate:48000", "samp_rate:48000"]).ks
      = (handle_control ⟨0, false⟩ ⟨14200000, 96000⟩ ["samp_rate:48000"]).ks ∧
    (handle_control ⟨0, false⟩ ⟨14200000, 96000⟩
        ["samp_rate:48000", "samp_rate:48000"]).cmds
      = (handle_control ⟨0, false⟩ ⟨14200000, 96000⟩ ["samp_rate:48000"]).cmds
        ++ (handle_control ⟨0, false⟩ ⟨14200000, 96000⟩ ["samp_rate:48000"]).cmds ∧
    (handle_control ⟨0, false⟩ ⟨14200000, 96000⟩ ["samp_rate:48000"]).cmds.length = 1 :=
  duplicate_message_state_once_propagation_twice ⟨0, false⟩ ⟨14200000, 96000⟩
    "samp_rate:48000" Key.samp_rate 48000 (by decide)

/-! ### Claims about the propagation actions and response verification -/

/-- Claim C6 (counterexample): `update_rate` does not address its command at
the configured receiver index — the `IQ_SAMPLERATE` write is sent with no
`rx=` argument at all (only `update_center` passes `rx=self.args.receiver`),
refuting the claim that both actions are addressed at the configured
receiver. -/
theorem update_rate_not_addressed_to_receiver :
    ¬ ((update_rate ⟨14200000, 96000⟩).rx
        = some (Config.mk 0 false).receiver) := by
  decide

/-- Claim C6 (amended): `update_rate` sends exactly one write command
carrying the current keystore `samp_rate` with no receiver index, and
`update_center` sends exactly one write command carrying the current
keystore `center_freq` addressed at the configured receiver index; each
merely awaits the send, never the radio's acknowledgement. -/
theorem propagation_commands_shape (cfg : Config) (ks : Keystore) :
    update_rate ks
      = { name := .IQ_SAMPLERATE, rx := none, params := [.pI ks.samp_rate] } ∧
    update_center cfg ks
      = { name := .DDS, rx := some cfg.receiver, params := [.pI ks.center_freq] } :=
  ⟨rfl, rfl⟩

/-- Claim C8: response verification never changes the keystore; a `DDS`
notification for a receiver other than the configured one produces no
warning at all; a `DDS` notification for the configured receiver whose value
differs from the stored `center_freq`, or any `IQ_SAMPLERATE` notification
whose value differs from the stored `samp_rate`, produces exactly the one
corresponding warning. -/
theorem check_response_warns_only (cfg : Config) (ks : Keystore)
    (command : String) (rx subrx : Nat) (param : Int) :
    (tci_check_response cfg ks command rx subrx param).1 = ks ∧
    (command = "DDS" → rx ≠ cfg.receiver →
      (tci_check_response cfg ks command rx subrx param).2 = []) ∧
    (command = "DDS" → rx = cfg.receiver → param ≠ ks.center_freq →
      (tci_check_response cfg ks command rx subrx param).2 = [Warning.centerMismatch]) ∧
    (command = "IQ_SAMPLERATE" → param ≠ ks.samp_rate →
      (tci_check_response cfg ks command rx subrx param).2 = [Warning.rateMismatch]) := by
  refine ⟨rfl, ?_, ?_, ?_⟩
  · intro h1 h2
    simp [tci_check_response, h1, h2]
  · intro h1 h2 h3
    simp [tci_check_response, h1, h2, h3]
  · intro h1 h2
    simp [tci_check_response, h1, h2]

/-- Witness for claim C8: the three warning cases at concrete notifications
(receiver 0 configured; mismatching values). -/
theorem check_response_warns_only_witness :
    (tci_check_response ⟨0, false⟩ ⟨14200000, 96000⟩ "DDS" 1 0 5).2 = [] ∧
    (tci_check_response ⟨0, false⟩ ⟨14200000, 96000⟩ "DDS" 0 0 5).2
      = [Warning.centerMismatch] ∧
    (tci_check_response ⟨0, false⟩ ⟨14200000, 96000⟩ "IQ_SAMPLERATE" 0 0 5).2
      = [Warning.rateMismatch] :=
  ⟨(check_response_warns_only ⟨0, false⟩ ⟨14200000, 96000⟩ "DDS" 1 0 5).2.1
      rfl (by decide),
   (check_response_warns_only ⟨0, false⟩ ⟨14200000, 96000⟩ "DDS" 0 0 5).2.2.1
      rfl rfl (by decide),
   (check_response_warns_only ⟨0, false⟩ ⟨14200000, 96000⟩ "IQ_SAMPLERATE" 0 0 5).2.2.2
      rfl (by decide)⟩

/-! ### Claims about the session state machine -/

theorem drainQueue_eq_nil (l : List Block) : drainQueue l = [] := by
  induction l with
  | nil => rfl
  | cons b rest ih => simpa [drainQueue] using ih

/-- Claim C1: whenever the session loop leaves Idle because the demand flag
was observed true, it sends — in this order, each awaited before the next —
the optional `START` command (only when the start/stop flag is configured),
`RX_ENABLE` for the configured receiver, an `IQ_SAMPLERATE` write carrying
the current keystore `samp_rate`, a `DDS` write carrying the current
keystore `center_freq`, and `IQ_START`; afterwards it is in the streaming
(demand-polling) phase. -/
theorem starting_sequence_ordered (cfg : Config) (env : Env) (s : SessionState)
    (hp : s.phase = Phase.idleWait) (hd : env.demand = true) :
    (tciStep cfg env s).phase = Phase.streaming ∧
    (tciStep cfg env s).sent
      = s.sent
        ++ ((if cfg.startstop then [{ name := .START, rx := none, params := [] }] else [])
          ++ [{ name := .RX_ENABLE, rx := some cfg.receiver, params := [.pB true] },
              { name := .IQ_SAMPLERATE, rx := none, params := [.pI env.ks.samp_rate] },
              { name := .DDS, rx := some cfg.receiver, params := [.pI env.ks.center_freq] },
              { name := .IQ_START, rx := some cfg.receiver, params := [] }]) := by
  constructor
  · simp [tciStep, hp, hd]
  · simp [tciStep, hp, hd, startingCmds, update_rate, update_center]

/-- Witness for claim C1 at a concrete configuration and state (start/stop
flag on, receiver 1). -/
theorem starting_sequence_ordered_witness :
    (tciStep ⟨1, true⟩ ⟨false, true, ⟨7000000, 48000⟩⟩
        ⟨Phase.idleWait, [3], [], [9]⟩).phase = Phase.streaming ∧
    (tciStep ⟨1, true⟩ ⟨false, true, ⟨7000000, 48000⟩⟩
        ⟨Phase.idleWait, [3], [], [9]⟩).sent
      = [{ name := .START, rx := none, params := [] },
         { name := .RX_ENABLE, rx := some 1, params := [.pB true] },
         { name := .IQ_SAMPLERATE, rx := none, params := [.pI 48000] },
         { name := .DDS, rx := some 1, params := [.pI 7000000] },
         { name := .IQ_START, rx := some 1, params := [] }] :=
  starting_sequence_ordered ⟨1, true⟩ ⟨false, true, ⟨7000000, 48000⟩⟩
    ⟨Phase.idleWait, [3], [], [9]⟩ rfl rfl

/-- Claim C3: whenever the session loop leaves the streaming phase because
the demand flag was observed false, it sends `IQ_STOP`, then `STOP` only
when the start/stop flag is configured, and empties the sample queue by
discarding every element — the delivered list is untouched — so the buffer
is empty the moment the loop top (Idle) is re-entered. -/
theorem stopping_drains_buffer (cfg : Config) (env : Env) (s : SessionState)
    (hp : s.phase = Phase.streaming) (hd : env.demand = false) :
    (tciStep cfg env s).phase = Phase.idleCheck ∧
    (tciStep cfg env s).sent
      = s.sent ++ ([{ name := .IQ_STOP, rx := some cfg.receiver, params := [] }]
          ++ (if cfg.startstop then [{ name := .STOP, rx := none, params := [] }] else [])) ∧
    (tciStep cfg env s).buffer = [] ∧
    (tciStep cfg env s).delivered = s.delivered := by
  refine ⟨?_, ?_, ?_, ?_⟩
  · simp [tciStep, hp, hd]
  · simp [tciStep, hp, hd, stoppingCmds]
  · simp [tciStep, hp, hd, drainQueue_eq_nil]
  · simp [tciStep, hp, hd]

/-- Witness for claim C3 at a concrete state with a nonempty buffer. -/
theorem stopping_drains_buffer_witness :
    (tciStep ⟨0, true⟩ ⟨false, false, ⟨7000000, 48000⟩⟩
        ⟨Phase.streaming, [4, 5, 6], [], [9]⟩).phase = Phase.idleCheck ∧
    (tciStep ⟨0, true⟩ ⟨false, false, ⟨7000000, 48000⟩⟩
        ⟨Phase.streaming, [4, 5, 6], [], [9]⟩).sent
      = [{ name := .IQ_STOP, rx := some 0, params := [] },
         { name := .STOP, rx := none, params := [] }] ∧
    (tciStep ⟨0, true⟩ ⟨false, false, ⟨7000000, 48000⟩⟩
        ⟨Phase.streaming, [4, 5, 6], [], [9]⟩).buffer = [] ∧
    (tciStep ⟨0, true⟩ ⟨false, false, ⟨7000000, 48000⟩⟩
        ⟨Phase.streaming, [4, 5, 6], [], [9]⟩).delivered = [9] :=
  stopping_drains_buffer ⟨0, true⟩ ⟨false, false, ⟨7000000, 48000⟩⟩
    ⟨Phase.streaming, [4, 5, 6], [], [9]⟩ rfl rfl

/-- Claim C10: the shutdown flag is read only at the loop top.  With the
shutdown flag true throughout: a step while blocked waiting for demand with
demand still false changes nothing (the controller does not exit); if
demand then becomes true the full Starting sequence runs and the loop
streams; when demand clears the full Stopping sequence runs, returning to
the loop top; only the step from the loop top observes the flag and exits. -/
theorem shutdown_checked_only_at_idle_top (cfg : Config) (ks : Keystore)
    (s : SessionState) (hp : s.phase = Phase.idleWait) :
    tciStep cfg ⟨true, false, ks⟩ s = s ∧
    (tciStep cfg ⟨true, true, ks⟩ s).phase = Phase.streaming ∧
    (tciStep cfg ⟨true, true, ks⟩ s).sent = s.sent ++ startingCmds cfg ks ∧
    (tciStep cfg ⟨true, false, ks⟩ (tciStep cfg ⟨true, true, ks⟩ s)).phase
      = Phase.idleCheck ∧
    (tciStep cfg ⟨true, false, ks⟩ (tciStep cfg ⟨true, true, ks⟩ s)).sent
      = s.sent ++ startingCmds cfg ks ++ stoppingCmds cfg ∧
    (tciStep cfg ⟨true, false, ks⟩ (tciStep cfg ⟨true, false, ks⟩
        (tciStep cfg ⟨true, true, ks⟩ s))).phase = Phase.done := by
  refine ⟨?_, ?_, ?_, ?_, ?_, ?_⟩ <;>
    simp [tciStep, hp, List.append_assoc]

/-- Witness for claim C10 at a concrete configuration and state. -/
theorem shutdown_checked_only_at_idle_top_witness :
    tciStep ⟨0, false⟩ ⟨true, false, ⟨7100000, 48000⟩⟩
        ⟨Phase.idleWait, [1, 2], [], []⟩
      = ⟨Phase.idleWait, [1, 2], [], []⟩ ∧
    (tciStep ⟨0, false⟩ ⟨true, true, ⟨7100000, 48000⟩⟩
        ⟨Phase.idleWait, [1, 2], [], []⟩).phase = Phase.streaming ∧
    (tciStep ⟨0, false⟩ ⟨true, true, ⟨7100000, 48000⟩⟩
        ⟨Phase.idleWait, [1, 2], [], []⟩).sent
      = [] ++ startingCmds ⟨0, false⟩ ⟨7100000, 48000⟩ ∧
    (tciStep ⟨0, false⟩ ⟨true, false, ⟨7100000, 48000⟩⟩
        (tciStep ⟨0, false⟩ ⟨true, true, ⟨7100000, 48000⟩⟩
          ⟨Phase.idleWait, [1, 2], [], []⟩)).phase = Phase.idleCheck ∧
    (tciStep ⟨0, false⟩ ⟨true, false, ⟨7100000, 48000⟩⟩
        (tciStep ⟨0, false⟩ ⟨true, true, ⟨7100000, 48000⟩⟩
          ⟨Phase.idleWait, [1, 2], [], []⟩)).sent
      = [] ++ startingCmds ⟨0, false⟩ ⟨7100000, 48000⟩ ++ stoppingCmds ⟨0, false⟩ ∧
    (tciStep ⟨0, false⟩ ⟨true, false, ⟨7100000, 48000⟩⟩
        (tciStep ⟨0, false⟩ ⟨true, false, ⟨7100000, 48000⟩⟩
          (tciStep ⟨0, false⟩ ⟨true, true, ⟨7100000, 48000⟩⟩
            ⟨Phase.idleWait, [1, 2], [], []⟩))).phase = Phase.done :=
  shutdown_checked_only_at_idle_top ⟨0, false⟩ ⟨7100000, 48000⟩
    ⟨Phase.idleWait, [1, 2], [], []⟩ rfl

/-! ### The end-to-end scenario of claim C5 -/

/-- Scenario configuration: receiver 0, start/stop flag off. -/
def scenarioCfg : Config := ⟨0, false⟩

/-- The two control messages of the scenario, processed from the configured
defaults. -/
def scenarioCtl : CtlResult :=
  handle_control scenarioCfg ⟨14200000, 96000⟩
    ["samp_rate:48000", "center_freq:7100000"]

/-- Session state after the streaming consumer connects (demand observed
true while waiting in Idle). -/
def scenarioAfterConnect : SessionState :=
  tciStep scenarioCfg ⟨false, true, scenarioCtl.ks⟩ ⟨Phase.idleWait, [], [], []⟩

/-- Session state after the consumer disconnects (demand observed false in
the streaming poll). -/
def scenarioAfterDisconnect : SessionState :=
  tciStep scenarioCfg ⟨false, false, scenarioCtl.ks⟩ scenarioAfterConnect

/-- All upstream commands of the scenario: those fired by the control
messages followed by those sent by the session loop. -/
def scenarioCmds : List Cmd :=
  scenarioCtl.cmds ++ scenarioAfterDisconnect.sent

/-- The command sequence the claim asserts for the scenario. -/
def scenarioClaimedCmds : List Cmd :=
  [{ name := .IQ_SAMPLERATE, rx := none, params := [.pI 48000] },
   { name := .RX_ENABLE, rx := some 0, params := [.pB true] },
   { name := .IQ_SAMPLERATE, rx := none, params := [.pI 48000] },
   { name := .DDS, rx := some 0, params := [.pI 7100000] },
   { name := .IQ_START, rx := some 0, params := [] },
   { name := .IQ_STOP, rx := some 0, params := [] }]

/-- Claim C5 (counterexample): the scenario does not produce the claimed
command sequence — the `center_freq:7100000` control message itself fires a
`DDS` push, which the claimed sequence omits. -/
theorem scenario_commands_ne_claimed : scenarioCmds ≠ scenarioClaimedCmds := by
  decide

/-- Claim C5 (amended): the complete command sequence of the scenario is the
rate push and the frequency push fired by the two control messages, then the
Starting sequence, then after the disconnect the stream-stop. -/
theorem scenario_commands_actual :
    scenarioCmds
      = [{ name := .IQ_SAMPLERATE, rx := none, params := [.pI 48000] },
         { name := .DDS, rx := some 0, params := [.pI 7100000] },
         { name := .RX_ENABLE, rx := some 0, params := [.pB true] },
         { name := .IQ_SAMPLERATE, rx := none, params := [.pI 48000] },
         { name := .DDS, rx := some 0, params := [.pI 7100000] },
         { name := .IQ_START, rx := some 0, params := [] },
         { name := .IQ_STOP, rx := some 0, params := [] }] := by
  decide

/-! ### Claim about the IQ relay loop -/

theorem relayLoop_exited (inputs : List RelayInput) (acc : List Block) :
    (relayLoop inputs acc).2 = inputs.any isRelayExit := by
  induction inputs generalizing acc with
  | nil => rfl
  | cons i rest ih => cases i <;> simp [relayLoop, isRelayExit, ih]

/-- Claim C7: whenever the relay loop of `handle_iq` terminates — whether by
observing the shutdown flag, by a failing queue take, or by an I/O fault
while writing to the consumer — the demand flag is false once the coroutine
has terminated; and it terminates exactly when one of those three exit
causes is observed. -/
theorem relay_exit_clears_demand (inputs : List RelayInput) :
    ((handle_iq inputs).exited = true → (handle_iq inputs).demand = false) ∧
    (handle_iq inputs).exited = inputs.any isRelayExit := by
  constructor
  · intro h
    simp only [handle_iq] at h ⊢
    rw [h]
    simp
  · simp only [handle_iq]
    exact relayLoop_exited inputs []

/-- Witness for claim C7: a delivered block followed by a failing queue
take; the loop exits and demand is cleared. -/
theorem relay_exit_clears_demand_witness :
    (handle_iq [RelayInput.blockOk 1, RelayInput.getFail]).demand = false ∧
    (handle_iq [RelayInput.blockOk 1, RelayInput.getFail]).exited
      = ([RelayInput.blockOk 1, RelayInput.getFail].any isRelayExit) :=
  ⟨(relay_exit_clears_demand [RelayInput.blockOk 1, RelayInput.getFail]).1 (by decide),
   (relay_exit_clears_demand [RelayInput.blockOk 1, RelayInput.getFail]).2⟩

end Connector
